import Mathlib

/-!
Verification of the seed-driven numeric core of the generator library.

A shallow embedding of the deterministic value-generator library: the linear
congruential seed advance, the `Gen` state-threading algebra, the range
scaling and bias machinery, and the derived numeric generators
(`decimal`, `positive`, `negative`, `uniform`, `sized`).

JavaScript `number` values on the exercised code paths are embedded as `ℚ`
(all arithmetic in these paths is exact at the magnitudes involved: seeds are
below `2 ^ 32`, products stay below `2 ^ 53`), and seeds as `ℕ`.  Fallible
construction is embedded as `Except String`.

The repository contains two coexisting generations of the numeric code
(`src/gen/number.ts` together with `instances.ts`, and the refactored
`src/gen/positive.ts` together with `stated.ts` / the functional `lcg`
module); both are embedded where claims cite both.
-/

namespace Generator

/-- The `Lcg` class from `src/lcg.ts`: multiplier `a`, increment `c`,
modulus `m`. -/
structure Lcg where
  a : ℕ
  c : ℕ
  m : ℕ
deriving DecidableEq

/-- Embeds `Lcg.increment` from `src/lcg.ts`: `(a * seed + c) % m`. -/
def Lcg.increment (l : Lcg) (seed : ℕ) : ℕ :=
  (l.a * seed + l.c) % l.m

/-- The module-level default instance `lcg` from `src/lcg.ts`. -/
def lcg : Lcg :=
  ⟨1664525, 1013904223, 2 ^ 32⟩

/-- Embeds `M_MODULUS` from the functional `lcg` module. -/
def M_MODULUS : ℕ := 2 ^ 32

/-- Embeds `C_CONSTANT` from the functional `lcg` module. -/
def C_CONSTANT : ℕ := 1013904223

/-- Embeds `A_MULTIPLIER` from the functional `lcg` module. -/
def A_MULTIPLIER : ℕ := 1664525

/-- Embeds `SEED_MIN` from the functional `lcg` module. -/
def SEED_MIN : ℕ := 0

/-- Embeds `SEED_MAX` from the functional `lcg` module: `M_MODULUS - 1`. -/
def SEED_MAX : ℕ := M_MODULUS - 1

/-- The free function `increment` from the functional `lcg` module:
`(A_MULTIPLIER * seed + C_CONSTANT) % M_MODULUS`. -/
def increment (seed : ℕ) : ℕ :=
  (A_MULTIPLIER * seed + C_CONSTANT) % M_MODULUS

/-- The `State` interface from `src/gen/class.ts`: a seed paired with the
`Lcg` used to advance it. -/
structure State where
  seed : ℕ
  lcg : Lcg
deriving DecidableEq

/-- The `Gen` class from `src/gen/class.ts`: a stateful computation
`State -> [A, State]`. -/
def Gen (A : Type) : Type :=
  State → A × State

namespace Gen

/-- Embeds `Gen.run` from `src/gen/class.ts`: execute and keep only the value. -/
def run {A : Type} (g : Gen A) (state : State) : A :=
  (g state).1

/-- Embeds `Gen.modify` from `src/gen/class.ts`: transform the resulting state,
value untouched. -/
def modify {A : Type} (g : Gen A) (f : State → State) : Gen A :=
  fun state1 =>
    let p := g state1
    (p.1, f p.2)

/-- Embeds `Gen.increment` from `src/gen/class.ts`: advance the threaded seed with
the lcg stored in the state. -/
def increment {A : Type} (g : Gen A) : Gen A :=
  g.modify (fun st => ⟨st.lcg.increment st.seed, st.lcg⟩)

/-- Embeds `Gen.map` from `src/gen/class.ts`. -/
def map {A B : Type} (g : Gen A) (f : A → B) : Gen B :=
  fun state1 =>
    let p := g state1
    (f p.1, p.2)

/-- Embeds `Gen.apply` from `src/gen/class.ts` (lines 128-135): run `this` on the
incoming state, run the argument generator on the state left by `this`,
apply the function value to the argument value. -/
def apply {A B : Type} (f : Gen (A → B)) (g : Gen A) : Gen B :=
  fun state1 =>
    let p1 := f state1
    let p2 := g p1.2
    (p1.1 p2.1, p2.2)

/-- Embeds `Gen.chain` from `src/gen/class.ts`. -/
def chain {A B : Type} (g : Gen A) (f : A → Gen B) : Gen B :=
  fun state1 =>
    let p := g state1
    f p.1 p.2

end Gen

/-- The record produced by `stated.doApply("mix", ...)` in the `positive`
generators: the fields of the original state together with the sampled `mix`. -/
structure StatedMix where
  seed : ℕ
  lcg : Lcg
  mix : ℚ

/-- Embeds `Gen.doApply` from `src/gen/class.ts` (`this.chain(a => gen.map(b =>
Object.assign(copy of a, mix: b)))`), specialised to the property name
`"mix"` over the `stated` record, which is how the `positive` generators
use it. -/
def Gen.doApplyMix (g : Gen State) (gen : Gen ℚ) : Gen StatedMix :=
  g.chain (fun a => gen.map (fun b => ⟨a.seed, a.lcg, b⟩))

/-- Embeds `stated` from `instances.ts` (the `src/gen/number.ts` generation):
`new Gen(state => [state, state]).increment()` — the value is the incoming
state, the threaded seed is advanced with the lcg of the state. -/
def stated : Gen State :=
  Gen.increment (fun state => (state, state))

/-- Embeds `stated` from `stated.ts` (the `src/gen/positive.ts` generation):
`new Gen(state => [state, state]).modify(st => seed: increment(st.seed))`,
advancing with the functional `increment`.  The source drops the `lcg`
field from the threaded state there; no downstream consumer in the
embedded pipelines reads the threaded `lcg`, and we retain the field so
that one `State` type serves both generations. -/
def statedF : Gen State :=
  Gen.modify (fun state => (state, state)) (fun st => ⟨increment st.seed, st.lcg⟩)

/-- Embeds `decimal` from `src/gen/number.ts` line 53:
`stated.map(st => st.seed / (st.lcg.m - 1))`. -/
def decimal : Gen ℚ :=
  stated.map (fun st => (st.seed : ℚ) / ((st.lcg.m : ℚ) - 1))

/-- Embeds `decimal` from `decimal.ts` (the `src/gen/positive.ts` generation):
`stated.map(st => st.seed / (M_MODULUS - 1))`. -/
def decimalC : Gen ℚ :=
  statedF.map (fun st => (st.seed : ℚ) / ((M_MODULUS : ℚ) - 1))

/-- The `Range` interface from `src/gen/number.ts` / `util.ts`. -/
structure Range where
  min : ℚ
  max : ℚ

/-- Embeds `clamp` from `src/gen/number.ts` / `util.ts`: saturate into the closed
interval, ties to the boundary values. -/
def clamp (x : ℚ) (r : Range) : ℚ :=
  if x ≥ r.max then r.max else if x ≤ r.min then r.min else x

/-- Embeds `createPositiveScaler` from `src/gen/number.ts` / `util.ts`:
`value => (t.max - t.min) * ((value - s.min) / (s.max - s.min)) + t.min`. -/
def createPositiveScaler (source target : Range) : ℚ → ℚ :=
  let top := target.max - target.min
  let bot := source.max - source.min
  fun value => top * ((value - source.min) / bot) + target.min

/-- Embeds `biasByMix` from `src/gen/number.ts` / `util.ts`:
`value * (1 - mix) + bias * mix` (the second JS parameter is the record
with fields `bias` and `mix`). -/
def biasByMix (value : ℚ) (bias mix : ℚ) : ℚ :=
  value * (1 - mix) + bias * mix

/-- The `PositiveOptions` option object of `positive` (identical in
`src/gen/number.ts` and `src/gen/positive.ts`): every field optional. -/
structure PositiveOptions where
  min : Option ℚ
  max : Option ℚ
  bias : Option ℚ
  influence : Option ℚ
  unchecked : Option Bool

/-- The verified options record returned by `verifyPositiveArguments`:
`min`/`max`/`unchecked` defaulted, `bias`/`influence` still optional. -/
structure VerifiedPositive where
  min : ℚ
  max : ℚ
  unchecked : Bool
  bias : Option ℚ
  influence : Option ℚ

/-- Embeds `verifyPositiveArguments` from `src/gen/positive.ts` lines 43-100 (the
identical checks are inlined in `positive` of `src/gen/number.ts` lines
87-128): defaults `min = 0`, `max = 2 ^ 32`, `unchecked = false`; unless
`unchecked`, rejects `min < 0`, `max < 0`, `max < min`, a `bias` below
`min` or above `max`, a `bias` without an `influence`, an `influence`
below `0` or above `1`, and an `influence` without a `bias`, in source
order. -/
def verifyPositiveArguments (options : Option PositiveOptions) :
    Except String VerifiedPositive :=
  let o := options.getD ⟨none, none, none, none, none⟩
  let min := o.min.getD 0
  let max := o.max.getD (2 ^ 32 : ℚ)
  let unchecked := o.unchecked.getD false
  let bias := o.bias
  let influence := o.influence
  if unchecked then .ok ⟨min, max, unchecked, bias, influence⟩
  else if min < 0 then
    .error "Minimum value should not be less than 0"
  else if max < 0 then
    .error "Maximum value should not be less than 0"
  else if max < min then
    .error "Maximum value should be equal to or greater than the minimum value"
  else
    match bias, influence with
    | some b, some i =>
      if b < min then
        .error "Bias should not be less than the minimum value"
      else if b > max then
        .error "Bias should not be greater than the maximum value"
      else if i < 0 then
        .error "Influence should not be less than 0"
      else if i > 1 then
        .error "Influence should not be greater that 1"
      else .ok ⟨min, max, unchecked, bias, influence⟩
    | some b, none =>
      if b < min then
        .error "Bias should not be less than the minimum value"
      else if b > max then
        .error "Bias should not be greater than the maximum value"
      else
        .error "Influence should not be defined when the bias is not defined"
    | none, some i =>
      if i < 0 then
        .error "Influence should not be less than 0"
      else if i > 1 then
        .error "Influence should not be greater that 1"
      else
        .error "Bias should not be defined when the influence is not defined"
    | none, none => .ok ⟨min, max, unchecked, bias, influence⟩

/-- The sampling pipeline of `positive` from `src/gen/positive.ts` lines
102-119, after validation: sample `mix` as `decimal * (influence ?? 1)`
through `stated.doApply("mix", ...)`, scale the original seed from
`[0, lcg.m - 1]` onto `[min, max]`, and bias by mix with the verified
`bias ?? 0` whenever `influence` is present. -/
def positivePosGen (v : VerifiedPositive) : Gen ℚ :=
  let target : Range := ⟨v.min, v.max⟩
  (statedF.doApplyMix (decimalC.map (fun d => d * (v.influence.getD 1)))).map
    (fun smix =>
      let source : Range := ⟨0, (smix.lcg.m : ℚ) - 1⟩
      let scaler := createPositiveScaler source target
      let unbiased := scaler (smix.seed : ℚ)
      match v.influence with
      | some _ => biasByMix unbiased (v.bias.getD 0) smix.mix
      | none => unbiased)

/-- Embeds `positive` from `src/gen/positive.ts`: validate, then sample. -/
def positivePos (options : Option PositiveOptions) : Except String (Gen ℚ) :=
  (verifyPositiveArguments options).map positivePosGen

/-- The sampling pipeline of `positive` from `src/gen/number.ts` lines
130-146: identical to the `positive.ts` pipeline except that the line
`bias = 0` immediately after validation replaces the validated bias with
`0` before the generator is built. -/
def positiveNumGen (v : VerifiedPositive) : Gen ℚ :=
  let bias : ℚ := 0
  let target : Range := ⟨v.min, v.max⟩
  (stated.doApplyMix (decimal.map (fun d => d * (v.influence.getD 1)))).map
    (fun smix =>
      let source : Range := ⟨0, (smix.lcg.m : ℚ) - 1⟩
      let scaler := createPositiveScaler source target
      let unbiased := scaler (smix.seed : ℚ)
      match v.influence with
      | some _ => biasByMix unbiased bias smix.mix
      | none => unbiased)

/-- Embeds `positive` from `src/gen/number.ts` lines 82-146: the inlined checks
(identical to `verifyPositiveArguments`) followed by the sampling pipeline
with the overwritten bias. -/
def positiveNum (options : Option PositiveOptions) : Except String (Gen ℚ) :=
  (verifyPositiveArguments options).map positiveNumGen

/-- The option object of `negative` from `src/gen/number.ts`. -/
structure NegativeOptions where
  min : Option ℚ
  max : Option ℚ
  bias : Option ℚ
  influence : Option ℚ
  unchecked : Option Bool

/-- The body of `negative` from `src/gen/number.ts` lines 174-180: calls
`positive` with `min: max`, `max: -min`, `bias: -bias`, the same
`influence`, and `unchecked: true`, then negates the produced value. -/
def negativeBody (min max bias influence : ℚ) : Except String (Gen ℚ) :=
  (positiveNum (some ⟨some max, some (-min), some (-bias), some influence,
      some true⟩)).map
    (fun g => g.map (fun p => -p))

/-- Embeds `negative` from `src/gen/number.ts` lines 148-180: defaults
`min = -(2 ^ 32)`, `max = 0`, `bias = -0`, `influence = 0`; unless
`unchecked`, rejects `min > 0`, `max > 0`, `min > max`, `bias` outside
`[0, 1]` and `influence` outside `[0, 1]`, then delegates to `positive`. -/
def negativeNum (o : NegativeOptions) : Except String (Gen ℚ) :=
  let min := o.min.getD (-(2 ^ 32 : ℚ))
  let max := o.max.getD 0
  let bias := o.bias.getD 0
  let influence := o.influence.getD 0
  let unchecked := o.unchecked.getD false
  if unchecked then negativeBody min max bias influence
  else if min > 0 then
    .error "Minimum value should not be greater than 0"
  else if max > 0 then
    .error "Maximum value should not be greater than 0"
  else if min > max then
    .error "Minimum value should be equal to or less than the maximum value"
  else if bias < 0 then
    .error "Bias should not be less than 0"
  else if bias > 1 then
    .error "Bias should not be greater that 1"
  else if influence < 0 then
    .error "Influence should not be less than 0"
  else if influence > 1 then
    .error "Influence should not be greater that 1"
  else negativeBody min max bias influence

/-- The generator shape used by `seeded`, `uniform` and `sized`: in that
generation of the source (`src/gen/seeded.ts`), the threaded state is the
bare seed. -/
def GenS (A : Type) : Type :=
  ℕ → A × ℕ

namespace GenS

/-- Embeds `Gen.run` for the bare-seed generation. -/
def run {A : Type} (g : GenS A) (seed : ℕ) : A :=
  (g seed).1

/-- Embeds `Gen.modify` for the bare-seed generation. -/
def modify {A : Type} (g : GenS A) (f : ℕ → ℕ) : GenS A :=
  fun s =>
    let p := g s
    (p.1, f p.2)

/-- Embeds `Gen.map` for the bare-seed generation. -/
def map {A B : Type} (g : GenS A) (f : A → B) : GenS B :=
  fun s =>
    let p := g s
    (f p.1, p.2)

end GenS

/-- Embeds `seeded` from `src/gen/seeded.ts`:
`new Gen(seed => [seed, seed]).modify(increment)` — the value is the
incoming seed, the threaded seed is advanced. -/
def seeded : GenS ℕ :=
  GenS.modify (fun seed => (seed, seed)) increment

/-- Embeds `uniform` from `src/gen/number/uniform.ts` lines 24-30: reject
`max < 1` at construction, else `seeded.map(m => floor(m / SEED_MAX * max))`. -/
def uniform (max : ℚ) : Except String (GenS ℤ) :=
  if max < 1 then
    .error "Sized generator must have a max number greater than 1."
  else
    .ok (seeded.map (fun m => ⌊(m : ℚ) / (SEED_MAX : ℚ) * max⌋))

/-- The `accumulate` helper of `src/gen/sized.ts` restricted to the list
tail (the JS `reduce` carries the previously pushed element). -/
def accumulateAux (f : ℚ → ℚ → ℚ) : ℚ → List ℚ → List ℚ
  | _, [] => []
  | prev, x :: xs => f prev x :: accumulateAux f (f prev x) xs

/-- Embeds `accumulate` from `src/gen/sized.ts`: running combination of the list,
keeping the first element as-is. -/
def accumulate (inputs : List ℚ) (f : ℚ → ℚ → ℚ) : List ℚ :=
  match inputs with
  | [] => []
  | x :: xs => x :: accumulateAux f x xs

/-- Embeds `createValidators` from `src/gen/sized.ts`: cumulative sums of the
distribution turned into interval membership checks (lower bound `0` for
the first entry, the previous cumulative sum otherwise). -/
def createValidators (distribution : List ℚ) : List (ℚ → Bool) :=
  let acc := accumulate distribution (fun previous current => previous + current)
  (List.range acc.length).map (fun index =>
    let upper := acc.getD index 0
    let lower := if index = 0 then (0 : ℚ) else acc.getD (index - 1) 0
    fun value => decide (lower ≤ value ∧ value ≤ upper))

/-- Embeds `sized` from `src/gen/sized.ts` lines 80-119 with an explicit
distribution (the defaulted argument, a cached `createDistribution max`,
is not exercised by the claims): reject `max < 1`, a distribution length
different from `max`, and a distribution sum different from `1`, in source
order; otherwise map the seed to the first cumulative bucket containing
`seed / (M_MODULUS - 1)`.  The inner runtime guard (`index < 0`) of the
source is embedded as the error value of the produced generator.  The sum
is the JS `reduce` without initial value; its empty-list case is
unreachable because the length check has already passed with `max >= 1`. -/
def sized (max : ℚ) (distribution : List ℚ) :
    Except String (GenS (Except String ℕ)) :=
  if max < 1 then
    .error "Sized generator must have a max number greater than 1."
  else if (distribution.length : ℚ) ≠ max then
    .error "The number of elements in a distribution must be equal to the length of the max value."
  else
    let sum : ℚ :=
      match distribution with
      | [] => 0
      | x :: xs => xs.foldl (fun prev curr => prev + curr) x
    if sum ≠ 1 then
      .error "The sum of a distribution should be equal to 1."
    else
      let validators := createValidators distribution
      .ok (seeded.map (fun seed =>
        let dec := (seed : ℚ) / ((M_MODULUS : ℚ) - 1)
        match validators.findIdx? (fun checker => checker dec) with
        | some index => .ok index
        | none => .error "Index should be greater than or equal to zero."))

/-- Glue: run the `src/gen/number.ts` `positive` on a state when its
construction succeeded. -/
def runPositiveNum (options : Option PositiveOptions) (s : State) :
    Except String ℚ :=
  (positiveNum options).map (fun g => g.run s)

/-- Glue: run the `src/gen/positive.ts` `positive` on a state when its
construction succeeded. -/
def runPositivePos (options : Option PositiveOptions) (s : State) :
    Except String ℚ :=
  (positivePos options).map (fun g => g.run s)

/-- Glue: run `negative` on a state when its construction succeeded. -/
def runNegativeNum (o : NegativeOptions) (s : State) : Except String ℚ :=
  (negativeNum o).map (fun g => g.run s)

/-- Glue: run `uniform` on a seed when its construction succeeded. -/
def runUniform (max : ℚ) (seed : ℕ) : Except String ℤ :=
  (uniform max).map (fun g => g.run seed)

/-- Glue: whether an `Except` is the error case. -/
def isError {ε α : Type _} : Except ε α → Bool
  | .error _ => true
  | .ok _ => false

/-- C1: for every seed, the LCG advance equals
`(1664525 * seed + 1013904223) mod 2 ^ 32` (for the default `lcg` and for
the functional `increment` alike), the result is again in `[0, 2 ^ 32)`,
and advancing the same seed twice yields the same result (the advance is a
pure function of the seed). -/
theorem lcg_advance (seed : ℕ) :
    Lcg.increment lcg seed = (1664525 * seed + 1013904223) % 2 ^ 32
    ∧ Lcg.increment lcg seed < 2 ^ 32
    ∧ increment seed = Lcg.increment lcg seed
    ∧ Lcg.increment lcg seed = Lcg.increment lcg seed := by
  refine ⟨rfl, ?_, rfl, rfl⟩
  exact Nat.mod_lt _ (by norm_num [lcg])

/-- C10: `f.apply(g)` threads state left to right: `f` runs first on the
incoming state producing a function value and an intermediate state, `g`
runs on that intermediate state, and the combined generator produces the
function applied to the argument together with the final state of `g`. -/
theorem apply_threading {A B : Type} (f : Gen (A → B)) (g : Gen A) (s : State) :
    Gen.apply f g s = ((f s).1 ((g (f s).2).1), (g (f s).2).2)
    ∧ Gen.run (Gen.apply f g) s = (f s).1 ((g (f s).2).1) :=
  ⟨rfl, rfl⟩

/-- C9: for every state carrying the default `lcg` and a seed in
`[0, 2 ^ 32)`, `decimal.run` returns `seed / (2 ^ 32 - 1)`, a value in
`[0, 1]`; in particular seed `1357954837` deterministically yields
`1357954837 / 4294967295`, strictly between `0` and `1`. -/
theorem decimal_run (s : State) (h1 : s.lcg = lcg) (h2 : s.seed < 2 ^ 32) :
    Gen.run decimal s = (s.seed : ℚ) / (2 ^ 32 - 1)
    ∧ 0 ≤ Gen.run decimal s ∧ Gen.run decimal s ≤ 1
    ∧ Gen.run decimal ⟨1357954837, lcg⟩ = (1357954837 : ℚ) / 4294967295
    ∧ 0 < Gen.run decimal ⟨1357954837, lcg⟩
    ∧ Gen.run decimal ⟨1357954837, lcg⟩ < 1 := by
  have hrun : ∀ t : State, Gen.run decimal t = (t.seed : ℚ) / ((t.lcg.m : ℚ) - 1) :=
    fun t => rfl
  have hm : (lcg.m : ℚ) - 1 = 4294967295 := by norm_num [lcg]
  have hs : (s.seed : ℚ) ≤ 4294967295 := by
    exact_mod_cast (by omega : s.seed ≤ 4294967295)
  refine ⟨?_, ?_, ?_, ?_, ?_, ?_⟩
  · rw [hrun, h1, hm]
    norm_num
  · rw [hrun, h1, hm]
    positivity
  · rw [hrun, h1, hm, div_le_one (by norm_num)]
    exact hs
  · norm_num [Gen.run, decimal, stated, Gen.increment, Gen.modify, Gen.map, lcg]
  · norm_num [Gen.run, decimal, stated, Gen.increment, Gen.modify, Gen.map, lcg]
  · norm_num [Gen.run, decimal, stated, Gen.increment, Gen.modify, Gen.map, lcg]

/-- Witness for C9 at the concrete state of the scenario in the spec. -/
theorem decimal_run_witness :
    Gen.run decimal ⟨1357954837, lcg⟩ = ((1357954837 : ℕ) : ℚ) / (2 ^ 32 - 1) :=
  (decimal_run ⟨1357954837, lcg⟩ rfl (by norm_num)).1

/-- C2, counterexample: at seed `2 ^ 32 - 1` with `n = 2` the code returns
`floor(seed / (2 ^ 32 - 1) * 2) = 2`, while the claimed formula
`floor(seed / 2 ^ 32 * n)` gives `1`, and `2` is not an index in `[0, 2)`. -/
theorem uniform_formula_counterexample :
    runUniform 2 (2 ^ 32 - 1) = Except.ok 2
    ∧ ⌊((2 ^ 32 - 1 : ℕ) : ℚ) / 2 ^ 32 * 2⌋ = 1
    ∧ ¬((2 : ℤ) < 2) := by
  refine ⟨?_, ?_, by decide⟩
  · norm_num [runUniform, uniform, seeded, GenS.run, GenS.map, GenS.modify,
      Except.map, SEED_MAX, M_MODULUS]
  · norm_num [Int.floor_eq_iff]

/-- C2, amended: for `n ≥ 1` and seed in `[0, 2 ^ 32)`, `uniform(n)`
returns `floor(seed / (2 ^ 32 - 1) * n)` (division by `SEED_MAX`, not by
the modulus); that value is an index in `[0, n)` whenever
`seed < 2 ^ 32 - 1`, and equals `n` at `seed = 2 ^ 32 - 1`; constructing
`uniform(m)` with `m < 1` is a construction error. -/
theorem uniform_amended (n : ℕ) (seed : ℕ) (h1 : 1 ≤ n) (h2 : seed < 2 ^ 32) :
    runUniform (n : ℚ) seed = Except.ok ⌊(seed : ℚ) / (2 ^ 32 - 1) * (n : ℚ)⌋
    ∧ (seed < 2 ^ 32 - 1 →
        0 ≤ ⌊(seed : ℚ) / (2 ^ 32 - 1) * (n : ℚ)⌋
        ∧ ⌊(seed : ℚ) / (2 ^ 32 - 1) * (n : ℚ)⌋ < (n : ℤ))
    ∧ (seed = 2 ^ 32 - 1 → runUniform (n : ℚ) seed = Except.ok (n : ℤ))
    ∧ ∀ m : ℚ, m < 1 → isError (uniform m) = true := by
  have hn : ¬((n : ℚ) < 1) := by
    rw [not_lt]
    exact_mod_cast h1
  have hform : runUniform (n : ℚ) seed
      = Except.ok ⌊(seed : ℚ) / (2 ^ 32 - 1) * (n : ℚ)⌋ := by
    simp only [runUniform, uniform, if_neg hn, Except.map, GenS.run, GenS.map,
      GenS.modify, seeded]
    norm_num [SEED_MAX, M_MODULUS]
  refine ⟨hform, fun hs => ⟨?_, ?_⟩, fun hs => ?_, fun m hm => ?_⟩
  · apply Int.floor_nonneg.mpr
    apply mul_nonneg _ (by positivity)
    apply div_nonneg (by positivity) (by norm_num)
  · apply Int.floor_lt.mpr
    have hlt : (seed : ℚ) / (2 ^ 32 - 1) < 1 := by
      rw [div_lt_one (by norm_num)]
      have h5 : (seed : ℚ) < 4294967295 :=
        by exact_mod_cast (by omega : seed < 4294967295)
      linarith
    calc (seed : ℚ) / (2 ^ 32 - 1) * (n : ℚ)
        < 1 * (n : ℚ) := by
          apply mul_lt_mul_of_pos_right hlt
          exact_mod_cast Nat.lt_of_lt_of_le Nat.zero_lt_one h1
      _ = ((n : ℤ) : ℚ) := by push_cast; ring
  · subst hs
    rw [hform]
    congr 1
    have : ((2 ^ 32 - 1 : ℕ) : ℚ) = 2 ^ 32 - 1 := by norm_num
    rw [this, div_self (by norm_num), one_mul]
    exact Int.floor_natCast n
  · simp [uniform, if_pos hm, isError]

/-- Witness for the amended C2 theorem at `n = 2`, seed `5`. -/
theorem uniform_amended_witness :
    runUniform ((2 : ℕ) : ℚ) 5 = Except.ok 0 :=
  ((uniform_amended 2 5 (by norm_num) (by norm_num)).1).trans
    (by norm_num [Int.floor_eq_iff])

/-- C3: evaluation of the failing input.  `positive` of
`src/gen/number.ts` at `min = 5 = max = bias`, `influence = 1`, run on
seed `0`, returns `16405315360 / 4294967295 ≈ 3.8196`, strictly below
`min = 5` and so outside `[min, max]` — the validated bias is overwritten
with `0` before sampling.  The refactored `positive` of
`src/gen/positive.ts` returns `5` on the same input, inside the range. -/
theorem positive_bias_overwritten :
    runPositiveNum (some ⟨some 5, some 5, some 5, some 1, none⟩) ⟨0, lcg⟩
        = Except.ok (16405315360 / 4294967295)
    ∧ ((16405315360 : ℚ) / 4294967295) < 5
    ∧ runPositivePos (some ⟨some 5, some 5, some 5, some 1, none⟩) ⟨0, lcg⟩
        = Except.ok 5 := by
  refine ⟨?_, by norm_num, ?_⟩
  · norm_num [runPositiveNum, positiveNum, positiveNumGen, verifyPositiveArguments,
      Except.map, Gen.run, Gen.doApplyMix, Gen.chain, Gen.map, stated, Gen.increment,
      Gen.modify, decimal, createPositiveScaler, biasByMix, Lcg.increment, lcg]
  · norm_num [runPositivePos, positivePos, positivePosGen, verifyPositiveArguments,
      Except.map, Gen.run, Gen.doApplyMix, Gen.chain, Gen.map, statedF, Gen.modify,
      decimalC, createPositiveScaler, biasByMix, increment, A_MULTIPLIER, C_CONSTANT,
      M_MODULUS, lcg]

/-- C4: evaluation of the failing input.  `negative` of
`src/gen/number.ts` at `min = -10`, `max = -4`, run on seed `0`, returns
`4`, which is above `max = -4` and hence outside `[min, max]`; `positive`
over the mirrored range of the spec `(-max .. -min) = (4 .. 10)` negated
returns `-4 ≠ 4` on the same state — the source passes `min: max` to
`positive` where the spec requires `min: -max`. -/
theorem negative_mirror_broken :
    runNegativeNum ⟨some (-10), some (-4), none, none, none⟩ ⟨0, lcg⟩
        = Except.ok 4
    ∧ ¬((4 : ℚ) ≤ -4)
    ∧ (runPositiveNum (some ⟨some 4, some 10, none, none, none⟩) ⟨0, lcg⟩).map
        (fun x => -x) = Except.ok (-4)
    ∧ (-4 : ℚ) ≠ 4 := by
  refine ⟨?_, by norm_num, ?_, by norm_num⟩
  · norm_num [runNegativeNum, negativeNum, negativeBody, positiveNum, positiveNumGen,
      verifyPositiveArguments, Except.map, Gen.run, Gen.doApplyMix, Gen.chain, Gen.map,
      stated, Gen.increment, Gen.modify, decimal, createPositiveScaler, biasByMix,
      Lcg.increment, lcg]
  · norm_num [runPositiveNum, positiveNum, positiveNumGen, verifyPositiveArguments,
      Except.map, Gen.run, Gen.doApplyMix, Gen.chain, Gen.map, stated, Gen.increment,
      Gen.modify, decimal, createPositiveScaler, biasByMix, Lcg.increment, lcg]

/-- Helper: `verifyPositiveArguments` succeeds on explicit in-range options
with both `bias` and `influence` present. -/
theorem verify_ok_pair (min max b i : ℚ)
    (h1 : ¬(min < 0)) (h2 : ¬(max < 0)) (h3 : ¬(max < min))
    (h4 : ¬(b < min)) (h5 : ¬(b > max)) (h6 : ¬(i < 0)) (h7 : ¬(i > 1)) :
    verifyPositiveArguments (some ⟨some min, some max, some b, some i, none⟩)
      = Except.ok ⟨min, max, false, some b, some i⟩ := by
  simp [verifyPositiveArguments, h1, h2, h3, h4, h5, h6, h7]

/-- Helper: `verifyPositiveArguments` succeeds on explicit in-range options
with neither `bias` nor `influence`. -/
theorem verify_ok_plain (min max : ℚ)
    (h1 : ¬(min < 0)) (h2 : ¬(max < 0)) (h3 : ¬(max < min)) :
    verifyPositiveArguments (some ⟨some min, some max, none, none, none⟩)
      = Except.ok ⟨min, max, false, none, none⟩ := by
  simp [verifyPositiveArguments, h1, h2, h3]

/-- Helper: the value produced by the `positive.ts` pipeline with both
`bias` and `influence` present. -/
theorem positivePosGen_run_pair (min max b i : ℚ) (s : State) :
    Gen.run (positivePosGen ⟨min, max, false, some b, some i⟩) s
      = biasByMix
          (createPositiveScaler ⟨0, (s.lcg.m : ℚ) - 1⟩ ⟨min, max⟩ (s.seed : ℚ))
          b (((increment s.seed : ℕ) : ℚ) / ((M_MODULUS : ℚ) - 1) * i) := rfl

/-- Helper: the value produced by the `positive.ts` pipeline with neither
`bias` nor `influence`. -/
theorem positivePosGen_run_plain (min max : ℚ) (s : State) :
    Gen.run (positivePosGen ⟨min, max, false, none, none⟩) s
      = createPositiveScaler ⟨0, (s.lcg.m : ℚ) - 1⟩ ⟨min, max⟩ (s.seed : ℚ) := rfl

/-- Helper: the value produced by the `number.ts` pipeline with both
`bias` and `influence` present (the overwritten bias `0` is what enters
`biasByMix`). -/
theorem positiveNumGen_run_pair (min max b i : ℚ) (s : State) :
    Gen.run (positiveNumGen ⟨min, max, false, some b, some i⟩) s
      = biasByMix
          (createPositiveScaler ⟨0, (s.lcg.m : ℚ) - 1⟩ ⟨min, max⟩ (s.seed : ℚ))
          0 (((s.lcg.increment s.seed : ℕ) : ℚ) / ((s.lcg.m : ℚ) - 1) * i) := rfl

/-- Helper: the value produced by the `number.ts` pipeline with neither
`bias` nor `influence`. -/
theorem positiveNumGen_run_plain (min max : ℚ) (s : State) :
    Gen.run (positiveNumGen ⟨min, max, false, none, none⟩) s
      = createPositiveScaler ⟨0, (s.lcg.m : ℚ) - 1⟩ ⟨min, max⟩ (s.seed : ℚ) := rfl

/-- C5: with a valid range and bias, `influence = 0` reproduces the
unbiased output exactly, on every state, for both coexisting `positive`
implementations. -/
theorem influence_zero_unbiased (min max bias : ℚ) (s : State)
    (h1 : 0 ≤ min) (h2 : min ≤ max) (h3 : min ≤ bias) (h4 : bias ≤ max) :
    ∃ gb gu gbN guN,
      positivePos (some ⟨some min, some max, some bias, some 0, none⟩) = Except.ok gb
      ∧ positivePos (some ⟨some min, some max, none, none, none⟩) = Except.ok gu
      ∧ positiveNum (some ⟨some min, some max, some bias, some 0, none⟩) = Except.ok gbN
      ∧ positiveNum (some ⟨some min, some max, none, none, none⟩) = Except.ok guN
      ∧ Gen.run gb s = Gen.run gu s
      ∧ Gen.run gbN s = Gen.run guN s := by
  have hv1 := verify_ok_pair min max bias 0 (by linarith) (by linarith) (by linarith)
    (by linarith) (by linarith) (by linarith) (by linarith)
  have hv2 := verify_ok_plain min max (by linarith) (by linarith) (by linarith)
  refine ⟨positivePosGen ⟨min, max, false, some bias, some 0⟩,
    positivePosGen ⟨min, max, false, none, none⟩,
    positiveNumGen ⟨min, max, false, some bias, some 0⟩,
    positiveNumGen ⟨min, max, false, none, none⟩, ?_, ?_, ?_, ?_, ?_, ?_⟩
  · unfold positivePos
    rw [hv1]
    rfl
  · unfold positivePos
    rw [hv2]
    rfl
  · unfold positiveNum
    rw [hv1]
    rfl
  · unfold positiveNum
    rw [hv2]
    rfl
  · rw [positivePosGen_run_pair, positivePosGen_run_plain, biasByMix]
    ring
  · rw [positiveNumGen_run_pair, positiveNumGen_run_plain, biasByMix]
    ring

/-- Witness for C5 at `min = 1`, `max = 3`, `bias = 2`, seed `5`. -/
theorem influence_zero_unbiased_witness :
    ((0 : ℚ) ≤ 1 ∧ (1 : ℚ) ≤ 3 ∧ (1 : ℚ) ≤ 2 ∧ (2 : ℚ) ≤ 3)
    ∧ ∃ gb gu gbN guN,
        positivePos (some ⟨some 1, some 3, some 2, some 0, none⟩) = Except.ok gb
        ∧ positivePos (some ⟨some 1, some 3, none, none, none⟩) = Except.ok gu
        ∧ positiveNum (some ⟨some 1, some 3, some 2, some 0, none⟩) = Except.ok gbN
        ∧ positiveNum (some ⟨some 1, some 3, none, none, none⟩) = Except.ok guN
        ∧ Gen.run gb ⟨5, lcg⟩ = Gen.run gu ⟨5, lcg⟩
        ∧ Gen.run gbN ⟨5, lcg⟩ = Gen.run guN ⟨5, lcg⟩ :=
  ⟨⟨by norm_num, by norm_num, by norm_num, by norm_num⟩,
    influence_zero_unbiased 1 3 2 ⟨5, lcg⟩ (by norm_num) (by norm_num)
      (by norm_num) (by norm_num)⟩

/-- C6: in `positive` of `src/gen/number.ts` the produced value is
independent of the bias option: two valid bias values yield equal outputs
on every state (the implementation overwrites the bias with `0` before
sampling). -/
theorem bias_independent (min max b1 b2 i : ℚ) (s : State)
    (h1 : 0 ≤ min) (h2 : min ≤ max)
    (h3 : min ≤ b1) (h4 : b1 ≤ max) (h5 : min ≤ b2) (h6 : b2 ≤ max)
    (h7 : 0 ≤ i) (h8 : i ≤ 1) :
    ∃ g1 g2,
      positiveNum (some ⟨some min, some max, some b1, some i, none⟩) = Except.ok g1
      ∧ positiveNum (some ⟨some min, some max, some b2, some i, none⟩) = Except.ok g2
      ∧ Gen.run g1 s = Gen.run g2 s := by
  have hv1 := verify_ok_pair min max b1 i (by linarith) (by linarith) (by linarith)
    (by linarith) (by linarith) (by linarith) (by linarith)
  have hv2 := verify_ok_pair min max b2 i (by linarith) (by linarith) (by linarith)
    (by linarith) (by linarith) (by linarith) (by linarith)
  refine ⟨positiveNumGen ⟨min, max, false, some b1, some i⟩,
    positiveNumGen ⟨min, max, false, some b2, some i⟩, ?_, ?_, ?_⟩
  · unfold positiveNum
    rw [hv1]
    rfl
  · unfold positiveNum
    rw [hv2]
    rfl
  · rw [positiveNumGen_run_pair, positiveNumGen_run_pair]

/-- Witness for C6 at `min = 0`, `max = 10`, biases `2` and `9`,
`influence = 1`, seed `0`. -/
theorem bias_independent_witness :
    ((0 : ℚ) ≤ 0 ∧ (0 : ℚ) ≤ 10 ∧ (0 : ℚ) ≤ 2 ∧ (2 : ℚ) ≤ 10
      ∧ (0 : ℚ) ≤ 9 ∧ (9 : ℚ) ≤ 10 ∧ (0 : ℚ) ≤ 1 ∧ (1 : ℚ) ≤ 1)
    ∧ ∃ g1 g2,
        positiveNum (some ⟨some 0, some 10, some 2, some 1, none⟩) = Except.ok g1
        ∧ positiveNum (some ⟨some 0, some 10, some 9, some 1, none⟩) = Except.ok g2
        ∧ Gen.run g1 ⟨0, lcg⟩ = Gen.run g2 ⟨0, lcg⟩ :=
  ⟨⟨by norm_num, by norm_num, by norm_num, by norm_num, by norm_num, by norm_num,
      by norm_num, by norm_num⟩,
    bias_independent 0 10 2 9 1 ⟨0, lcg⟩ (by norm_num) (by norm_num) (by norm_num)
      (by norm_num) (by norm_num) (by norm_num) (by norm_num) (by norm_num)⟩

/-- Helper: the JS `reduce` without initial value over a nonempty list is
the list sum. -/
theorem foldl_add_eq_sum (x : ℚ) (xs : List ℚ) :
    xs.foldl (fun prev curr => prev + curr) x = x + xs.sum := by
  induction xs generalizing x with
  | nil => simp
  | cons y ys ih =>
    rw [List.foldl_cons, ih, List.sum_cons]
    ring

/-- Helper: `sized` is a construction error exactly when `n < 1`, or the
distribution length differs from `n`, or the weights do not sum to
exactly `1`. -/
theorem sized_error_iff (n : ℚ) (d : List ℚ) :
    isError (sized n d) = true ↔ (n < 1 ∨ (d.length : ℚ) ≠ n ∨ d.sum ≠ 1) := by
  by_cases h1 : n < 1
  · simp [sized, h1, isError]
  · by_cases h2 : (d.length : ℚ) = n
    · rcases d with _ | ⟨x, xs⟩
      · exfalso
        apply h1
        rw [← h2]
        norm_num
      · simp only [List.length_cons] at h2
        push_cast at h2
        by_cases h3 : (x :: xs).sum = 1
        · have hsum : xs.foldl (fun prev curr => prev + curr) x = 1 := by
            rw [foldl_add_eq_sum, ← List.sum_cons, h3]
          simp [sized, h1, h2, hsum, isError, h3]
        · have hsum : xs.foldl (fun prev curr => prev + curr) x ≠ 1 := by
            rw [foldl_add_eq_sum, ← List.sum_cons]
            exact h3
          simp [sized, h1, h2, hsum, isError, h3]
          simpa using h3
    · simp [sized, h1, h2, isError]

/-- C7: `sized(n, distribution)` raises a construction error exactly when
`n < 1`, or the distribution length differs from `n`, or the weights do
not sum to exactly `1`; in particular the length-6 table and the
sum-0.9 table from the examples of the spec both raise for `n = 5`, and a
mismatched table is never silently corrected (no non-error case exists
outside the characterization). -/
theorem sized_validation :
    (∀ (n : ℚ) (d : List ℚ),
        isError (sized n d) = true ↔ (n < 1 ∨ (d.length : ℚ) ≠ n ∨ d.sum ≠ 1))
    ∧ isError (sized 5 [0.1, 0.15, 0.2, 0.25, 0.2, 0.1]) = true
    ∧ isError (sized 5 [0.1, 0.15, 0.2, 0.25, 0.2]) = true
    ∧ isError (sized 3 [0.1, 0.2, 0.7]) = false := by
  refine ⟨sized_error_iff, ?_, ?_, ?_⟩
  · rw [sized_error_iff]
    norm_num
  · rw [sized_error_iff]
    norm_num
  · rw [show isError (sized 3 [0.1, 0.2, 0.7]) = false ↔
        ¬(isError (sized 3 [0.1, 0.2, 0.7]) = true) by simp]
    rw [sized_error_iff]
    norm_num

/-- Helper: mapping over an `Except` preserves whether it is an error. -/
theorem isError_map {ε α β : Type _} (f : α → β) (x : Except ε α) :
    isError (Except.map f x) = isError x := by
  cases x <;> rfl

set_option maxHeartbeats 1600000 in
/-- Helper: characterization of `verifyPositiveArguments` failure when
validation is not skipped. -/
theorem verify_error_iff (o : PositiveOptions)
    (h : o.unchecked.getD false = false) :
    isError (verifyPositiveArguments (some o)) = true ↔
      (o.min.getD 0 < 0 ∨ o.max.getD (2 ^ 32) < 0
        ∨ o.max.getD (2 ^ 32) < o.min.getD 0
        ∨ (∃ b, o.bias = some b ∧ o.influence = none)
        ∨ (∃ i, o.influence = some i ∧ o.bias = none)
        ∨ (∃ b, o.bias = some b ∧ (b < o.min.getD 0 ∨ b > o.max.getD (2 ^ 32)))
        ∨ (∃ i, o.influence = some i ∧ (i < 0 ∨ i > 1))) := by
  obtain ⟨omin, omax, obias, oinfl, ounch⟩ := o
  dsimp only at h ⊢
  have hu : ounch.getD false = false := h
  rcases obias with _ | b <;> rcases oinfl with _ | i <;>
    simp only [verifyPositiveArguments, Option.getD_some, hu] <;>
    split_ifs <;> simp_all [isError]

/-- C8: with `unchecked` false, `positive(options)` (both coexisting
implementations) raises a validation error at construction exactly when
`min < 0`, or `max < 0`, or `max < min`, or `bias` is present without
`influence` (or `influence` without `bias`), or `bias` lies outside
`[min, max]`, or `influence` lies outside `[0, 1]`; with `unchecked` true
no validation error is raised; and once construction succeeds every run
is total (it produces a value and a successor state on every state). -/
theorem positive_validation (o : PositiveOptions)
    (h : o.unchecked.getD false = false) :
    ((isError (positivePos (some o)) = true
        ∧ isError (positiveNum (some o)) = true) ↔
      (o.min.getD 0 < 0 ∨ o.max.getD (2 ^ 32) < 0
        ∨ o.max.getD (2 ^ 32) < o.min.getD 0
        ∨ (∃ b, o.bias = some b ∧ o.influence = none)
        ∨ (∃ i, o.influence = some i ∧ o.bias = none)
        ∨ (∃ b, o.bias = some b ∧ (b < o.min.getD 0 ∨ b > o.max.getD (2 ^ 32)))
        ∨ (∃ i, o.influence = some i ∧ (i < 0 ∨ i > 1))))
    ∧ (∀ o2 : PositiveOptions, o2.unchecked = some true →
        isError (positivePos (some o2)) = false
        ∧ isError (positiveNum (some o2)) = false)
    ∧ (∀ (g : Gen ℚ) (s : State), positivePos (some o) = Except.ok g →
        ∃ value s2, g s = (value, s2)) := by
  refine ⟨?_, ?_, ?_⟩
  · rw [show isError (positivePos (some o))
          = isError (verifyPositiveArguments (some o)) from isError_map _ _,
      show isError (positiveNum (some o))
          = isError (verifyPositiveArguments (some o)) from isError_map _ _,
      and_self]
    exact verify_error_iff o h
  · intro o2 h2
    constructor
    · show isError (Except.map positivePosGen (verifyPositiveArguments (some o2)))
          = false
      rw [isError_map]
      simp [verifyPositiveArguments, h2, isError]
    · show isError (Except.map positiveNumGen (verifyPositiveArguments (some o2)))
          = false
      rw [isError_map]
      simp [verifyPositiveArguments, h2, isError]
  · intro g s _
    exact ⟨(g s).1, (g s).2, rfl⟩

/-- Witness for C8: `min = -1` is rejected by construction. -/
theorem positive_validation_witness :
    isError (positivePos (some ⟨some (-1), none, none, none, none⟩)) = true :=
  (((positive_validation ⟨some (-1), none, none, none, none⟩ rfl).1).mpr
    (Or.inl (by norm_num [Option.getD]))).1

end Generator
